import Mathlib

/-!
Shallow embedding of the Media-Session Presence Synchronizer of the
`amusic` application (Tauri backend, files `src-tauri/src/apple_music/player.rs`,
`src-tauri/src/discord/client.rs`, `src-tauri/src/utils/artwork.rs`,
`src-tauri/src/error/mod.rs`).

Modelling conventions:
* Rust `Mutex<Option<T>>` globals become explicit cells carrying a `poisoned`
  flag (a poisoned mutex makes `lock()` return `Err`) and the guarded value;
  every stateful function takes the cells it touches and returns the updated
  ones.
* The MPRIS bus is modelled by the list of currently registered players and a
  snapshot of the resolved player's progress data; bus-transport failures and
  the iTunes HTTP lookup are environmental inputs, not modelled as code.
* `u32`/`u64`/`i64` samples stay far below their bounds in this code path, so
  they are embedded as `Nat` (durations, monotonic instants) and `Int`
  (epoch seconds); no overflow wrapping is reachable for the modelled values.
* Fallible Rust functions (`Result<T, AppError>`) become `Except AppError T`.
* The `vec[0]` indexing on a possibly-empty artist vector can panic; the
  pipeline outcome type has an explicit `panic` constructor for it.
-/

namespace Amusic

/-- Mirror of `AppError` from `src-tauri/src/error/mod.rs`. -/
inductive AppError where
  | discord (msg : String)
  | mpris (msg : String)
  | player (msg : String)
  | network (msg : String)
  | application (msg : String)
deriving DecidableEq, Repr

deriving instance DecidableEq for Except

/-- Mirror of `mpris::PlaybackStatus` (only the variants the code compares). -/
inductive PlaybackStatus where
  | playing
  | paused
  | stopped
deriving DecidableEq, Repr

/-- One registered player on the local media-control bus
(`mpris::Player`: the code reads `bus_name()` and `identity()`). -/
structure Player where
  bus_name : String
  identity : String
deriving DecidableEq, Repr

/-- The `APPLE_MUSIC_PID : Mutex<Option<u32>>` global of `player.rs`,
with an explicit poisoned flag for the mutex. -/
structure PidCell where
  poisoned : Bool
  value : Option Nat
deriving DecidableEq, Repr

/-- Rust `list.contains(pat)` (substring containment) on char lists:
`pat` occurs contiguously inside `s`. Helper: prefix test. -/
def listIsPre : List Char → List Char → Bool
  | [], _ => true
  | _ :: _, [] => false
  | a :: as, b :: bs => a == b && listIsPre as bs

/-- Substring occurrence test on char lists. -/
def listIsSub (pat : List Char) : List Char → Bool
  | [] => listIsPre pat []
  | b :: rest => listIsPre pat (b :: rest) || listIsSub pat rest

/-- Rust `str::contains` (substring). -/
def strContains (s pat : String) : Bool :=
  listIsSub pat.data s.data

/-- Rust `str::strip_prefix`: `some` of the remainder when `p` starts `s`. -/
def strStrip (p s : String) : Option String :=
  if listIsPre p.data s.data then some (s.drop p.length) else none

/-- `store_pid` from `player.rs`: store the PID, or propagate the lock
failure as an `Application` error. -/
def store_pid (c : PidCell) (pid : Nat) : Except AppError PidCell :=
  if c.poisoned then
    .error (.application "Failed to lock PID mutex")
  else
    .ok { c with value := some pid }

/-- `get_pid` from `player.rs`: read the stored PID; `Player` error when it
was never stored, `Application` error when the mutex is poisoned. -/
def get_pid (c : PidCell) : Except AppError Nat :=
  if c.poisoned then
    .error (.application "Failed to lock PID mutex")
  else
    match c.value with
    | some pid => .ok pid
    | none => .error (.player "Apple Music PID not stored")

/-- `find_apple_music_player` from `player.rs`: scoped resolution.  The
`PlayerFinder::find_all()` bus query is modelled by the given `players`
list.  Returns the first player whose bus name contains the stored PID as a
substring; otherwise a not-found `Player` error. -/
def find_apple_music_player (c : PidCell) (players : List Player) :
    Except AppError Player :=
  match get_pid c with
  | .error e => .error e
  | .ok apple_music_pid =>
    if players.isEmpty then
      .error (.player ("Apple Music player with PID " ++ toString apple_music_pid ++
        " not found. No players are active yet."))
    else
      let pid_str := toString apple_music_pid
      match players.find? (fun p => strContains p.bus_name pid_str) with
      | some p => .ok p
      | none =>
        .error (.player ("Apple Music player with PID " ++ toString apple_music_pid ++
          " not found. No player for this specific instance is active yet."))

/-- The `SongInfo` cache record of `player.rs`.  `last_updated` is the
monotonic `Instant` of the write, in seconds. -/
structure SongInfo where
  title : String
  artist : String
  start_time : Int
  end_time : Option Int
  artwork_url : Option String
  apple_music_url : String
  last_updated : Nat
deriving DecidableEq, Repr

/-- The `CURRENT_SONG : Mutex<Option<SongInfo>>` global of `player.rs`. -/
structure CacheCell where
  poisoned : Bool
  value : Option SongInfo
deriving DecidableEq, Repr

/-- `get_cached_song_info` from `player.rs`.  `mono_now` is the current
monotonic instant, so `song.last_updated.elapsed()` is
`mono_now - song.last_updated`.  Note the `if let Ok(guard) = lock()` in the
source: a poisoned lock falls through to `None` exactly like a miss. -/
def get_cached_song_info (c : CacheCell) (mono_now : Nat)
    (title artist : String) : Option SongInfo :=
  if c.poisoned then
    none
  else
    match c.value with
    | some song =>
      if song.title = title ∧ song.artist = artist ∧
          mono_now - song.last_updated < 30 then
        some song
      else
        none
    | none => none

/-- `cache_song_info` from `player.rs`: overwrite the single cache slot, or
propagate the lock failure as an `Application` error. -/
def cache_song_info (c : CacheCell) (song : SongInfo) :
    Except AppError CacheCell :=
  if c.poisoned then
    .error (.application "Failed to lock song cache mutex")
  else
    .ok { c with value := some song }

/-- `APPLE_MUSIC_URL` from `config/constants.rs`. -/
def APPLE_MUSIC_URL : String := "https://music.apple.com"

/-- Upper-case hex digit of `n < 16` (as produced by `urlencoding`). -/
def hexChar (n : Nat) : Char :=
  if n < 10 then Char.ofNat (48 + n) else Char.ofNat (55 + n)

/-- UTF-8 bytes of a code point, as `Nat`s below 256. -/
def utf8Bytes (n : Nat) : List Nat :=
  if n < 128 then [n]
  else if n < 2048 then [192 + n / 64, 128 + n % 64]
  else if n < 65536 then [224 + n / 4096, 128 + (n / 64) % 64, 128 + n % 64]
  else [240 + n / 262144, 128 + (n / 4096) % 64, 128 + (n / 64) % 64, 128 + n % 64]

/-- RFC 3986 unreserved characters, kept verbatim by `urlencoding::encode`. -/
def isUnreserved (ch : Char) : Bool :=
  ch.isAlphanum || ch == '-' || ch == '_' || ch == '.' || ch == '~'

/-- Percent-encoding of one byte. -/
def pctByte (b : Nat) : String :=
  String.mk ['%', hexChar (b / 16), hexChar (b % 16)]

/-- `urlencoding::encode`: keep unreserved ASCII, percent-encode every other
character's UTF-8 bytes. -/
def urlencode (s : String) : String :=
  String.join (s.data.map fun ch =>
    if isUnreserved ch then String.mk [ch]
    else String.join ((utf8Bytes ch.toNat).map pctByte))

/-- `get_apple_music_search_url` from `utils/artwork.rs`. -/
def get_apple_music_search_url (title artist : String) : String :=
  APPLE_MUSIC_URL ++ "/search?term=" ++ urlencode (title ++ " " ++ artist)

/-- `discord_rich_presence::activity::Timestamps`: both fields optional,
`.start(..)` / `.end(..)` set them to `Some`. -/
structure Timestamps where
  ts_start : Option Int
  ts_end : Option Int
deriving DecidableEq, Repr

/-- The observable activity record built by `set_activity` in
`discord/client.rs` (details, state, assets, button, timestamps). -/
structure ActivityRec where
  details : String
  state : String
  large_image : String
  small_image : String
  button_label : String
  button_url : String
  ts : Timestamps
deriving DecidableEq, Repr

/-- Observable state of a connected `DiscordIpcClient`: the activity it is
currently displaying, if any. -/
structure ClientState where
  activity : Option ActivityRec
deriving DecidableEq, Repr

/-- The `DISCORD_CLIENT : Mutex<Option<DiscordIpcClient>>` global of
`discord/client.rs`, with an explicit poisoned flag.  The IPC transport of
`set_activity` / `clear_activity` is treated as reliable (wire failures are
environmental). -/
structure DiscordState where
  poisoned : Bool
  client : Option ClientState
deriving DecidableEq, Repr

/-- `clear_presence` from `discord/client.rs`: with no initialized client it
is a no-op returning `Ok(())`; otherwise it clears the activity. -/
def clear_presence (d : DiscordState) : Except AppError DiscordState :=
  if d.poisoned then
    .error (.discord "Failed to lock Discord client mutex")
  else
    match d.client with
    | some _ => .ok { d with client := some { activity := none } }
    | none => .ok d

/-- `MINUTES_IN_SECONDS` from `set_activity` in `discord/client.rs`. -/
def MINUTES_IN_SECONDS : Int := 180

/-- `set_activity` from `discord/client.rs`.  The timestamps always start
with the 3-minute default end (`start_time + 180`); a supplied `end_time`
replaces it only when `end > start_time` and `end - start_time ≤ 86400`. -/
def set_activity (d : DiscordState) (title artist : String)
    (artwork_url : Option String) (start_time : Int) (end_time : Option Int)
    (apple_music_url : String) : Except AppError DiscordState :=
  if d.poisoned then
    .error (.discord "Failed to lock Discord client mutex")
  else
    match d.client with
    | some _ =>
      let large_image :=
        match artwork_url with
        | some url => url
        | none => "amusic_lg"
      let ts0 : Timestamps :=
        { ts_start := some start_time,
          ts_end := some (start_time + MINUTES_IN_SECONDS) }
      let ts :=
        match end_time with
        | some e =>
          if e > start_time ∧ e - start_time ≤ 86400 then
            { ts0 with ts_end := some (start_time + (e - start_time)) }
          else
            ts0
        | none => ts0
      let act : ActivityRec :=
        { details := title, state := artist, large_image := large_image,
          small_image := "amusic_lg", button_label := "Play in Apple Music",
          button_url := apple_music_url, ts := ts }
      .ok { d with client := some { activity := some act } }
    | none => .error (.discord "Discord client not initialized")

/-- Snapshot of the resolved player's `ProgressTick` data used by
`update_discord_presence` (`player.rs` lines 159-177): playback status,
metadata title / artists, position and optional length in whole seconds. -/
structure PlayerSnapshot where
  playback_status : PlaybackStatus
  title : Option String
  artists : Option (List String)
  position : Nat
  length : Option Nat
deriving DecidableEq, Repr

/-- The timestamp computation inlined in `update_discord_presence`
(`player.rs` lines 172-193):
`position = progress.position().as_secs()` (used unmodified),
`length = progress.length().map(as_secs).unwrap_or(0)`,
`start_time = current_time - position`,
`end_time = Some(start_time + length)` iff `length > 0 && length < 86400`. -/
def timing_of (position : Nat) (length : Option Nat) (current_time : Int) :
    Int × Option Int :=
  let p : Int := position
  let l : Int := (length.map fun n => (n : Int)).getD 0
  let start_time := current_time - p
  let end_time := if 0 < l ∧ l < 86400 then some (start_time + l) else none
  (start_time, end_time)

/-- Outcome of one run of `update_discord_presence`: the Rust
`Result<String, AppError>`, plus `panic` for the `[0]` index on an empty
artist vector. -/
inductive UpdateOutcome where
  | panic
  | err (e : AppError)
  | ok (msg : String)
deriving DecidableEq, Repr

/-- `update_discord_presence` from `player.rs`, over explicit state: the PID
cell, the registered-player list, the resolved player's progress snapshot,
the iTunes artwork lookup result (`art_lookup`, an external HTTP call), the
epoch time `current_time`, the monotonic instant `mono_now`, the song cache
and the Discord client.  Returns the outcome with the updated cache and
Discord state. -/
def update_discord_presence (pc : PidCell) (players : List Player)
    (snap : PlayerSnapshot) (art_lookup : Option String)
    (current_time : Int) (mono_now : Nat)
    (cache : CacheCell) (d : DiscordState) :
    UpdateOutcome × CacheCell × DiscordState :=
  match find_apple_music_player pc players with
  | .error e => (.err e, cache, d)
  | .ok _ =>
    if snap.playback_status ≠ PlaybackStatus.playing then
      match clear_presence d with
      | .error e => (.err e, cache, d)
      | .ok d2 => (.err (.player "Player is not currently playing"), cache, d2)
    else
      let title := snap.title.getD "No title"
      match (snap.artists.getD ["Unknown"]).head? with
      | none => (.panic, cache, d)
      | some artist =>
        let t := timing_of snap.position snap.length current_time
        let start_time := t.1
        let end_time := t.2
        match get_cached_song_info cache mono_now title artist with
        | some cached =>
          if cached.end_time.isNone && end_time.isSome then
            let cached2 := { cached with end_time := end_time }
            let updated_song : SongInfo :=
              { title := cached.title, artist := cached.artist,
                start_time := cached.start_time, end_time := end_time,
                artwork_url := cached.artwork_url,
                apple_music_url := cached.apple_music_url,
                last_updated := mono_now }
            let cache2 :=
              match cache_song_info cache updated_song with
              | .ok c => c
              | .error _ => cache
            match set_activity d cached2.title cached2.artist
                cached2.artwork_url cached2.start_time cached2.end_time
                cached2.apple_music_url with
            | .error e => (.err e, cache2, d)
            | .ok d2 =>
              (.ok ("Discord presence active (cached): " ++ artist ++ " - " ++ title),
               cache2, d2)
          else
            match set_activity d cached.title cached.artist
                cached.artwork_url cached.start_time cached.end_time
                cached.apple_music_url with
            | .error e => (.err e, cache, d)
            | .ok d2 =>
              (.ok ("Discord presence active (cached): " ++ artist ++ " - " ++ title),
               cache, d2)
        | none =>
          let artwork_url := art_lookup
          let apple_music_url := get_apple_music_search_url title artist
          let song_info : SongInfo :=
            { title := title, artist := artist, start_time := start_time,
              end_time := end_time, artwork_url := artwork_url,
              apple_music_url := apple_music_url, last_updated := mono_now }
          match cache_song_info cache song_info with
          | .error e => (.err e, cache, d)
          | .ok cache2 =>
            match set_activity d title artist artwork_url start_time end_time
                apple_music_url with
            | .error e => (.err e, cache2, d)
            | .ok d2 =>
              (.ok ("Discord presence active: " ++ artist ++ " - " ++ title),
               cache2, d2)

/-- Counter state of the polling thread in `start_periodic_updates`
(`discord/client.rs`). -/
structure PollState where
  attempts_for_current_song : Nat
  last_song_title : String
  last_song_artist : String
deriving DecidableEq, Repr

/-- One iteration of the polling loop body in `start_periodic_updates`
(`discord/client.rs` lines 138-188), applied to the `Result` of
`update_discord_presence`.  Returns the updated counter state and the number
of seconds slept before the next poll (2 on the fast-retry `continue`
branch, 10 on the standard interval). -/
def poll_step (st : PollState) (r : Except AppError String) :
    PollState × Nat :=
  match r with
  | .error _ => (st, 10)
  | .ok msg =>
    if strContains msg "Waiting for complete song data for" then
      match strStrip "Waiting for complete song data for " msg with
      | some song_info =>
        let parts := song_info.splitOn " - "
        if parts.length = 2 then
          let artist := parts.getD 0 ""
          let title := parts.getD 1 ""
          let st2 : PollState :=
            if artist = st.last_song_artist ∧ title = st.last_song_title then
              { st with attempts_for_current_song :=
                  st.attempts_for_current_song + 1 }
            else
              { attempts_for_current_song := 1,
                last_song_title := title, last_song_artist := artist }
          if st2.attempts_for_current_song < 5 then (st2, 2) else (st2, 10)
        else
          (st, 10)
      | none => (st, 10)
    else
      ({ attempts_for_current_song := 0, last_song_title := "",
         last_song_artist := "" }, 10)

/-! ### Theorems -/

/-- C1 counterexample: at raw duration 200 s, raw position 500 s, now 1000,
the code computes `start_time = 1000 - 500 = 500`, not the claimed 1000 —
the raw position is not clamped to 0 even though it exceeds the duration. -/
theorem position_clamp_counterexample :
    (timing_of 500 (some 200) 1000).1 = 500 ∧
    (timing_of 500 (some 200) 1000).1 ≠ 1000 := by
  decide

/-- C1 amended: the pipeline performs no position sanitization at all: for
every raw position, raw duration and clock value, `start_time` is
`now - raw_position`, even when the position exceeds the duration or
86400 s. -/
theorem start_time_unsanitized (position : Nat) (length : Option Nat)
    (current_time : Int) :
    (timing_of position length current_time).1 = current_time - position :=
  rfl

/-- C4 counterexample: a raw duration of exactly 86400 s is rejected (the
code requires `length < 86400` strictly), so `end_time` is `None`, not the
claimed `Some (start_time + 86400)`. -/
theorem duration_boundary_counterexample :
    (timing_of 10 (some 86400) 1000).2 = none ∧
    (timing_of 10 (some 86400) 1000).2 ≠ some (990 + 86400) := by
  decide

/-- C4 amended: `end_time = Some (start_time + raw_duration)` exactly when
`0 < raw_duration < 86400`; any raw duration of 86400 s or more (including
exactly 86400) yields `None`, as does an absent or zero duration. -/
theorem end_time_strict_bound (position : Nat) (length : Option Nat)
    (current_time : Int) :
    (timing_of position length current_time).2 =
      if 0 < length.getD 0 ∧ length.getD 0 < 86400 then
        some (current_time - position + (length.getD 0 : Nat))
      else
        none := by
  cases length with
  | none => simp [timing_of]
  | some n =>
    have hl : (((some n).map fun m => (m : Int)).getD 0) = (n : Int) := rfl
    simp only [timing_of, hl, Option.getD_some]
    by_cases h : 0 < n ∧ n < 86400
    · have h' : 0 < (n : Int) ∧ (n : Int) < 86400 :=
        ⟨by exact_mod_cast h.1, by exact_mod_cast h.2⟩
      rw [if_pos h', if_pos h]
    · have h' : ¬(0 < (n : Int) ∧ (n : Int) < 86400) := fun hc =>
        h ⟨by exact_mod_cast hc.1, by exact_mod_cast hc.2⟩
      rw [if_neg h', if_neg h]

/-- C2 counterexample: publishing with `end_time = None` on an initialized
client produces a presence record whose end timestamp is
`Some (start_time + 180)` — the 3-minute default — not an absent end. -/
theorem set_activity_fabricates_end :
    set_activity ⟨false, some ⟨none⟩⟩ "T" "A" none 1000 none "url" =
      .ok ⟨false, some ⟨some ⟨"T", "A", "amusic_lg", "amusic_lg",
        "Play in Apple Music", "url", ⟨some 1000, some 1180⟩⟩⟩⟩ ∧
    (some (1180 : Int)) ≠ (none : Option Int) := by
  constructor
  · rfl
  · decide

/-- C2 amended: on an initialized, unpoisoned client the published record
always carries an end timestamp: a valid supplied end
(`end > start ∧ end - start ≤ 86400`) is published as-is, while an absent
or invalid end is replaced by the 3-minute default `start_time + 180`. -/
theorem set_activity_default_end (d : DiscordState) (cs : ClientState)
    (title artist : String) (art : Option String) (s : Int)
    (e? : Option Int) (url : String)
    (hp : d.poisoned = false) (hc : d.client = some cs) :
    set_activity d title artist art s e? url =
      .ok { d with client := some ⟨some ⟨title, artist,
        art.getD "amusic_lg", "amusic_lg", "Play in Apple Music", url,
        ⟨some s, some (match e? with
          | some e => if e > s ∧ e - s ≤ 86400 then e else s + MINUTES_IN_SECONDS
          | none => s + MINUTES_IN_SECONDS)⟩⟩⟩ } := by
  simp only [set_activity, hp, hc, Bool.false_eq_true, if_false]
  cases e? with
  | none => cases art <;> rfl
  | some e =>
    by_cases h : e > s ∧ e - s ≤ 86400
    · have he : s + (e - s) = e := by omega
      simp only [if_pos h, he]
      cases art <;> simp [MINUTES_IN_SECONDS]
    · simp only [if_neg h]
      cases art <;> simp [MINUTES_IN_SECONDS]

/-- C2 amended, witness at a concrete input: a valid end 5000 with start
1000 is published unchanged. -/
theorem set_activity_default_end_witness :
    set_activity ⟨false, some ⟨none⟩⟩ "T" "A" none 1000 (some 5000) "u" =
      .ok ⟨false, some ⟨some ⟨"T", "A", "amusic_lg", "amusic_lg",
        "Play in Apple Music", "u", ⟨some 1000, some 5000⟩⟩⟩⟩ := by
  have h := set_activity_default_end ⟨false, some ⟨none⟩⟩ ⟨none⟩
    "T" "A" none 1000 (some 5000) "u" rfl rfl
  simpa using h

/-- C6 counterexample: with the song-cache mutex poisoned,
`get_cached_song_info` returns `None` for an entry that is present, fresh
and matching — the very result an ordinary cache miss produces, with no
error surfaced to the caller. -/
theorem cache_lock_failure_swallowed :
    get_cached_song_info ⟨true, some ⟨"T", "A", 100, none, none, "u", 0⟩⟩
      0 "T" "A" = none ∧
    get_cached_song_info ⟨false, some ⟨"T", "A", 100, none, none, "u", 0⟩⟩
      0 "T" "A" = some ⟨"T", "A", 100, none, none, "u", 0⟩ := by
  decide

/-- C6 amended: `get_pid`, `store_pid` and `cache_song_info` do propagate a
poisoned lock as an `Application` error, but `get_cached_song_info` swallows
it and returns `None`, indistinguishable from a cache miss. -/
theorem lock_failure_partially_propagated (pc : PidCell) (c : CacheCell)
    (song : SongInfo) (mono : Nat) (t a : String) (pid : Nat)
    (hpc : pc.poisoned = true) (hc : c.poisoned = true) :
    get_pid pc = .error (.application "Failed to lock PID mutex") ∧
    store_pid pc pid = .error (.application "Failed to lock PID mutex") ∧
    cache_song_info c song =
      .error (.application "Failed to lock song cache mutex") ∧
    get_cached_song_info c mono t a = none := by
  refine ⟨?_, ?_, ?_, ?_⟩ <;>
    simp [get_pid, store_pid, cache_song_info, get_cached_song_info, hpc, hc]

/-- C6 amended, witness at concrete poisoned cells. -/
theorem lock_failure_partially_propagated_witness :
    get_pid ⟨true, some 7⟩ =
      .error (.application "Failed to lock PID mutex") ∧
    store_pid ⟨true, some 7⟩ 9 =
      .error (.application "Failed to lock PID mutex") ∧
    cache_song_info ⟨true, none⟩ ⟨"T", "A", 0, none, none, "u", 0⟩ =
      .error (.application "Failed to lock song cache mutex") ∧
    get_cached_song_info ⟨true, none⟩ 0 "T" "A" = none :=
  lock_failure_partially_propagated ⟨true, some 7⟩ ⟨true, none⟩
    ⟨"T", "A", 0, none, none, "u", 0⟩ 0 "T" "A" 9 rfl rfl

/-- C8: a successfully resolved, playing player whose metadata carries a
present-but-empty artists list drives the pipeline into the `[0]` index of
an empty vector: the run panics instead of erroring. -/
theorem empty_artists_panics :
    update_discord_presence ⟨false, some 4242⟩
      [⟨"org.mpris.MediaPlayer2.chromium.instance4242", "Chromium"⟩]
      ⟨.playing, some "Song", some [], 10, some 200⟩ none 1000 50
      ⟨false, none⟩ ⟨false, some ⟨none⟩⟩ =
    (.panic, ⟨false, none⟩, ⟨false, some ⟨none⟩⟩) := by
  decide

/-- C5: second reconcile call within 30 s for the same (title, artist), with
the cached `end_time` still `None` and the new timing supplying a valid
duration: the published record reuses the cached title, artist, artwork
reference, external URL and `start_time`, and the cache entry changes only
in `end_time` (upgraded to `Some`) and `last_updated` (refreshed to the
current instant). -/
theorem cache_upgrade_stable
    (pc : PidCell) (players : List Player) (pl : Player)
    (snap : PlayerSnapshot) (art : Option String) (ct : Int) (mono : Nat)
    (e : SongInfo) (cs : ClientState) (rest : List String) (n : Nat)
    (hfind : find_apple_music_player pc players = .ok pl)
    (hplay : snap.playback_status = PlaybackStatus.playing)
    (htitle : snap.title = some e.title)
    (hart : snap.artists = some (e.artist :: rest))
    (hlen : snap.length = some n) (hn0 : 0 < n) (hn1 : n < 86400)
    (hfresh : mono - e.last_updated < 30)
    (hend : e.end_time = none) :
    ∃ act : ActivityRec,
      update_discord_presence pc players snap art ct mono
          ⟨false, some e⟩ ⟨false, some cs⟩ =
        (.ok ("Discord presence active (cached): " ++ e.artist ++ " - " ++ e.title),
         ⟨false, some { e with
            end_time := some (ct - (snap.position : Int) + (n : Int)),
            last_updated := mono }⟩,
         ⟨false, some ⟨some act⟩⟩) ∧
      act.details = e.title ∧
      act.state = e.artist ∧
      act.large_image = e.artwork_url.getD "amusic_lg" ∧
      act.button_url = e.apple_music_url ∧
      act.ts.ts_start = some e.start_time := by
  have hcached : get_cached_song_info ⟨false, some e⟩ mono e.title e.artist =
      some e := by
    simp [get_cached_song_info, hfresh]
  have htiming : timing_of snap.position snap.length ct =
      (ct - (snap.position : Int),
       some (ct - (snap.position : Int) + (n : Int))) := by
    have h0 : (0 : Int) < (n : Int) := by exact_mod_cast hn0
    have h1 : (n : Int) < 86400 := by exact_mod_cast hn1
    simp [timing_of, hlen, h0, h1]
  simp only [update_discord_presence, hfind, hplay, ne_eq,
    not_true_eq_false, if_false, htitle, hart, Option.getD_some,
    List.head?_cons, htiming, hcached, hend, Option.isNone_none,
    Option.isSome_some, Bool.and_self, if_true, cache_song_info,
    Bool.false_eq_true, set_activity]
  refine ⟨_, rfl, rfl, rfl, ?_, rfl, ?_⟩
  · cases e.artwork_url <;> rfl
  · split <;> split <;> rfl

/-- C5 witness at concrete inputs: first call's entry cached at instant 20
with unknown end, second call at instant 30 with a 200-second length. -/
theorem cache_upgrade_stable_witness :
    ∃ act : ActivityRec,
      update_discord_presence ⟨false, some 4242⟩
        [⟨"org.mpris.MediaPlayer2.chromium.instance4242", "Chromium"⟩]
        ⟨.playing, some "Song A", some ["Artist X"], 10, some 200⟩
        none 1000 30
        ⟨false, some ⟨"Song A", "Artist X", 985, none, some "art", "url", 20⟩⟩
        ⟨false, some ⟨none⟩⟩ =
      (.ok ("Discord presence active (cached): " ++ "Artist X" ++ " - " ++ "Song A"),
       ⟨false, some ⟨"Song A", "Artist X", 985, some (1000 - (10 : Int) + (200 : Int)),
          some "art", "url", 30⟩⟩,
       ⟨false, some ⟨some act⟩⟩) ∧
      act.details = "Song A" ∧
      act.state = "Artist X" ∧
      act.large_image = (some "art").getD "amusic_lg" ∧
      act.button_url = "url" ∧
      act.ts.ts_start = some (985 : Int) :=
  cache_upgrade_stable ⟨false, some 4242⟩
    [⟨"org.mpris.MediaPlayer2.chromium.instance4242", "Chromium"⟩]
    ⟨"org.mpris.MediaPlayer2.chromium.instance4242", "Chromium"⟩
    ⟨.playing, some "Song A", some ["Artist X"], 10, some 200⟩
    none 1000 30
    ⟨"Song A", "Artist X", 985, none, some "art", "url", 20⟩
    ⟨none⟩ [] 200
    (by decide) rfl rfl rfl rfl (by decide) (by decide) (by decide) rfl

/-- A successful prefix test relates the head characters. -/
theorem listIsPre_head (p s : List Char) (h : listIsPre p s = true) :
    p = [] ∨ p.head? = s.head? := by
  cases p with
  | nil => exact Or.inl rfl
  | cons a as =>
    cases s with
    | nil => simp [listIsPre] at h
    | cons b bs =>
      right
      simp only [listIsPre, Bool.and_eq_true, beq_iff_eq] at h
      simp [h.1]

/-- A string starting with `D` never has a prefix starting with `W`. -/
theorem strStrip_none_of_head (p s : String) (hp : p.data.head? = some 'W')
    (hs : s.data.head? = some 'D') : strStrip p s = none := by
  have hfalse : listIsPre p.data s.data = false := by
    cases hcase : listIsPre p.data s.data
    · rfl
    · exfalso
      rcases listIsPre_head _ _ hcase with h | h
      · rw [h] at hp; simp at hp
      · rw [hp, hs] at h; exact absurd h (by decide)
  unfold strStrip
  rw [hfalse]
  rfl

/-- On any update result whose message starts with `D`, the polling loop
takes the standard 10-second interval, never the 2-second fast branch. -/
theorem poll_step_ten_of_head (st : PollState) (msg : String)
    (h : msg.data.head? = some 'D') : (poll_step st (.ok msg)).2 = 10 := by
  have hstrip : strStrip "Waiting for complete song data for " msg = none :=
    strStrip_none_of_head _ _ (by decide) h
  simp only [poll_step]
  by_cases hc : strContains msg "Waiting for complete song data for" = true
  · rw [if_pos hc, hstrip]
  · rw [if_neg hc]

/-- Appending preserves the head character of a nonempty string. -/
theorem head_of_append (p x : String) (c : Char)
    (hp : p.data.head? = some c) : (p ++ x).data.head? = some c := by
  rw [String.data_append]
  cases hl : p.data with
  | nil => rw [hl] at hp; simp at hp
  | cons a as =>
    rw [hl] at hp
    simp only [List.head?_cons, Option.some.injEq] at hp
    subst hp
    simp

/-- Every `Ok` message `update_discord_presence` can return starts with the
character `D` (both success messages begin with `Discord presence active`). -/
theorem update_ok_head (pc : PidCell) (players : List Player)
    (snap : PlayerSnapshot) (art : Option String) (ct : Int) (mono : Nat)
    (cache : CacheCell) (d : DiscordState) (msg : String)
    (h : (update_discord_presence pc players snap art ct mono cache d).1 =
      .ok msg) :
    msg.data.head? = some 'D' := by
  simp only [update_discord_presence] at h
  repeat' split at h
  all_goals
    first
    | (rw [show msg = _ from (UpdateOutcome.ok.inj h.symm)]
       exact head_of_append _ _ _ (head_of_append _ _ _
         (head_of_append _ _ _ (by decide))))
    | exact UpdateOutcome.noConfusion h

/-- C7: the fast 2-second backoff branch of the polling loop is dead code:
for every result actually produced by `update_discord_presence`, the poll
sleeps the standard 10 seconds (success messages never start with the
`Waiting for complete song data for ` trigger prefix, and errors skip the
branch entirely). -/
theorem waiting_backoff_unreachable (pc : PidCell) (players : List Player)
    (snap : PlayerSnapshot) (art : Option String) (ct : Int) (mono : Nat)
    (cache : CacheCell) (d : DiscordState) (st : PollState) (msg : String)
    (h : (update_discord_presence pc players snap art ct mono cache d).1 =
      .ok msg) :
    (poll_step st (.ok msg)).2 = 10 ∧
    (∀ e, (poll_step st (.error e)).2 = 10) :=
  ⟨poll_step_ten_of_head st msg
    (update_ok_head pc players snap art ct mono cache d msg h), fun _ => rfl⟩

/-- C7 witness: a full concrete pipeline run returns a success message and
the next poll still waits 10 seconds. -/
theorem waiting_backoff_unreachable_witness :
    (poll_step ⟨0, "", ""⟩
      (.ok ("Discord presence active: " ++ "Artist" ++ " - " ++ "Song"))).2 = 10 ∧
    (∀ e, (poll_step ⟨0, "", ""⟩ (.error e)).2 = 10) :=
  waiting_backoff_unreachable ⟨false, some 4242⟩
    [⟨"org.mpris.MediaPlayer2.chromium.instance4242", "Chromium"⟩]
    ⟨.playing, some "Song", some ["Artist"], 10, some 200⟩
    none 1000 50 ⟨false, none⟩ ⟨false, some ⟨none⟩⟩ ⟨0, "", ""⟩
    ("Discord presence active: " ++ "Artist" ++ " - " ++ "Song")
    (by decide)

/-- C10: with no initialized Discord client (and an unpoisoned lock),
`clear_presence` is a no-op returning `Ok` while `set_activity` always
fails with the client-not-initialized error. -/
theorem clear_set_asymmetry (d : DiscordState) (title artist : String)
    (art : Option String) (s : Int) (e? : Option Int) (url : String)
    (hp : d.poisoned = false) (hc : d.client = none) :
    clear_presence d = .ok d ∧
    set_activity d title artist art s e? url =
      .error (.discord "Discord client not initialized") := by
  constructor <;> simp [clear_presence, set_activity, hp, hc]

/-- The identity-unset error message differs from every not-found message
(they disagree at character index 12: `P` against `p`). -/
theorem unset_msg_ne (pid : Nat) (suffix : String) :
    ("Apple Music PID not stored" : String) ≠
      "Apple Music player with PID " ++ toString pid ++ suffix := by
  intro h
  have h2 := congrArg (fun s => s.data.getD 12 ' ') h
  simp only at h2
  rw [String.data_append, String.data_append] at h2
  rw [List.getD_append, List.getD_append] at h2
  · exact absurd h2 (by decide)
  · decide
  · rw [List.length_append]
    have : ("Apple Music player with PID ".data).length = 28 := by decide
    omega

/-- C3: with the PID mutex healthy, `find_apple_music_player` (1) fails with
the distinct identity-unset error when no PID is stored; (2) returns a
player only if it is one of the registered players and its bus address
contains the stored PID as a substring; (3) fails with a not-found error
when the list is empty or no bus address contains the PID; and (4) the
identity-unset message differs from both not-found messages. -/
theorem resolve_scoped (pc : PidCell) (players : List Player)
    (hp : pc.poisoned = false) :
    (pc.value = none →
      find_apple_music_player pc players =
        .error (.player "Apple Music PID not stored")) ∧
    (∀ pid p, pc.value = some pid →
      find_apple_music_player pc players = .ok p →
        p ∈ players ∧ strContains p.bus_name (toString pid) = true) ∧
    (∀ pid, pc.value = some pid →
      (∀ p ∈ players, strContains p.bus_name (toString pid) = false) →
      find_apple_music_player pc players = .error (.player
        (if players.isEmpty then
          "Apple Music player with PID " ++ toString pid ++
            " not found. No players are active yet."
        else
          "Apple Music player with PID " ++ toString pid ++
            " not found. No player for this specific instance is active yet."))) ∧
    (∀ pid : Nat,
      ("Apple Music PID not stored" : String) ≠
        "Apple Music player with PID " ++ toString pid ++
          " not found. No players are active yet." ∧
      ("Apple Music PID not stored" : String) ≠
        "Apple Music player with PID " ++ toString pid ++
          " not found. No player for this specific instance is active yet.") := by
  refine ⟨?_, ?_, ?_, fun pid => ⟨unset_msg_ne pid _, unset_msg_ne pid _⟩⟩
  · intro hv
    simp [find_apple_music_player, get_pid, hp, hv]
  · intro pid p hv hok
    simp only [find_apple_music_player, get_pid, hp, Bool.false_eq_true,
      if_false, hv] at hok
    by_cases he : players.isEmpty
    · rw [if_pos he] at hok
      simp at hok
    · rw [if_neg he] at hok
      cases hfind : players.find? (fun q => strContains q.bus_name (toString pid)) with
      | none => rw [hfind] at hok; simp at hok
      | some q =>
        rw [hfind] at hok
        simp only [Except.ok.injEq] at hok
        subst hok
        exact ⟨List.mem_of_find?_eq_some hfind,
          by simpa using List.find?_some hfind⟩
  · intro pid hv hnone
    simp only [find_apple_music_player, get_pid, hp, Bool.false_eq_true,
      if_false, hv]
    by_cases he : players.isEmpty
    · rw [if_pos he, if_pos he]
    · have hfind : players.find?
          (fun q => strContains q.bus_name (toString pid)) = none := by
        rw [List.find?_eq_none]
        intro q hq
        simp [hnone q hq]
      rw [if_neg he, if_neg he, hfind]

/-- C3 witness: a concrete list with an unrelated player and the scoped one;
the resolver returns the scoped player, which is in the list and whose bus
name contains the PID. -/
theorem resolve_scoped_witness :
    (⟨"org.mpris.MediaPlayer2.chromium.instance4242", "Chromium"⟩ : Player) ∈
      ([⟨"org.mpris.MediaPlayer2.spotify", "Spotify"⟩,
        ⟨"org.mpris.MediaPlayer2.chromium.instance4242", "Chromium"⟩] :
        List Player) ∧
    strContains "org.mpris.MediaPlayer2.chromium.instance4242"
      (toString 4242) = true :=
  (resolve_scoped ⟨false, some 4242⟩
      [⟨"org.mpris.MediaPlayer2.spotify", "Spotify"⟩,
       ⟨"org.mpris.MediaPlayer2.chromium.instance4242", "Chromium"⟩]
      rfl).2.1 4242
    ⟨"org.mpris.MediaPlayer2.chromium.instance4242", "Chromium"⟩
    rfl (by decide)

/-- C9: whenever the player resolves but its status is not `Playing`, the
pipeline clears the published presence and returns the not-playing `Player`
error; the song cache is passed through untouched (the result holds for
every cache state, and the returned cache is the input cache). -/
theorem not_playing_clears_then_errors
    (pc : PidCell) (players : List Player) (pl : Player)
    (snap : PlayerSnapshot) (art : Option String) (ct : Int) (mono : Nat)
    (cache : CacheCell) (d d2 : DiscordState)
    (hfind : find_apple_music_player pc players = .ok pl)
    (hst : snap.playback_status ≠ PlaybackStatus.playing)
    (hclear : clear_presence d = .ok d2) :
    update_discord_presence pc players snap art ct mono cache d =
      (.err (.player "Player is not currently playing"), cache, d2) ∧
    (∀ cs, d.client = some cs → d2.client = some ⟨none⟩) := by
  constructor
  · simp only [update_discord_presence, hfind]
    rw [if_pos hst, hclear]
  · intro cs hcs
    have hp : d.poisoned = false := by
      by_contra hp'
      rw [Bool.not_eq_false] at hp'
      simp [clear_presence, hp'] at hclear
    simp only [clear_presence, hp, Bool.false_eq_true, if_false, hcs,
      Except.ok.injEq] at hclear
    rw [← hclear]

/-- C9 witness: a paused player at concrete inputs; presence is cleared and
the not-playing error returned, cache untouched. -/
theorem not_playing_clears_then_errors_witness :
    update_discord_presence ⟨false, some 4242⟩
      [⟨"org.mpris.MediaPlayer2.chromium.instance4242", "Chromium"⟩]
      ⟨.paused, none, none, 0, none⟩ none 0 0
      ⟨false, none⟩ ⟨false, some ⟨none⟩⟩ =
      (.err (.player "Player is not currently playing"),
       ⟨false, none⟩, ⟨false, some ⟨none⟩⟩) ∧
    (∀ cs, (⟨false, some ⟨none⟩⟩ : DiscordState).client = some cs →
      (⟨false, some ⟨none⟩⟩ : DiscordState).client = some ⟨none⟩) :=
  not_playing_clears_then_errors ⟨false, some 4242⟩
    [⟨"org.mpris.MediaPlayer2.chromium.instance4242", "Chromium"⟩]
    ⟨"org.mpris.MediaPlayer2.chromium.instance4242", "Chromium"⟩
    ⟨.paused, none, none, 0, none⟩ none 0 0
    ⟨false, none⟩ ⟨false, some ⟨none⟩⟩ ⟨false, some ⟨none⟩⟩
    (by decide) (by decide) (by decide)

/-- C10 witness at a concrete uninitialized state. -/
theorem clear_set_asymmetry_witness :
    clear_presence ⟨false, none⟩ = .ok ⟨false, none⟩ ∧
    set_activity ⟨false, none⟩ "T" "A" none 0 none "u" =
      .error (.discord "Discord client not initialized") :=
  clear_set_asymmetry ⟨false, none⟩ "T" "A" none 0 none "u" rfl rfl

end Amusic
